import Mathlib

/-!
# stelecom: a client of the Stream-Telecom SMS gateway

A shallow embedding of `client.go` (package `stelecom`): the four operations
`Authorize`, `GetBalance`, `SendSms` and `GetSmsStatus` of `stClient`, over

* a model of the network: a gateway is a function from the request the client
  builds to the reply it receives (a transport error, or a status code and a
  body stream);
* a model of the parts of the Go standard library the client calls:
  `encoding/json` (`json.Unmarshal` into the four target types of the client),
  `net/url` (`url.Values.Encode`), `io.LimitReader`, `ioutil.ReadAll`,
  `strings.Replace` and `strings.ToLower`.

Go strings and byte slices are lists of bytes; a byte is a natural number
below 256.
-/

namespace Stelecom

/-! ## Bytes -/

/-- A Go `string` or `[]byte`: a sequence of bytes, each a number below 256. -/
abbrev Bytes := List Nat

/-- The bytes of an ASCII string literal. -/
def ascii (s : String) : Bytes := s.data.map Char.toNat

/-- Every element is a byte. -/
def WellFormed (s : Bytes) : Prop := ∀ b ∈ s, b < 256

instance (s : Bytes) : Decidable (WellFormed s) := by
  unfold WellFormed
  infer_instance

/-! ## encoding/json: the scanner

`json.Unmarshal` first validates the whole input (`checkValid`), then decodes
it into the target. The validation is modelled in two passes with the same
language: a byte-level automaton that cuts the input into tokens (the states
of Go's scanner inside strings, numbers and literals), and a pushdown
automaton over the tokens (the scanner's parse-state stack). -/

/-- A JSON token. A string token carries the raw bytes between its quotes
(escapes not yet decoded), a number token carries its literal. -/
inductive Token where
  | lbrace | rbrace | lbrack | rbrack | colon | comma
  | str (raw : Bytes)
  | num (lit : Bytes)
  | tTrue | tFalse | tNull
deriving DecidableEq, Repr

/-- The states of the scanner inside a number literal (`stateNeg`, `state0`,
`state1`, `stateDot`, `stateDot0`, `stateE`, `stateESign`, `stateE0`). -/
inductive NumState where
  | neg | zero | int | dot | frac | e | eSign | exp
deriving DecidableEq, Repr

/-- A number may end in this state. -/
def NumState.accepting : NumState → Bool
  | .zero | .int | .frac | .exp => true
  | _ => false

def isDigit (b : Nat) : Bool := 48 ≤ b && b ≤ 57

def isHexDigit (b : Nat) : Bool :=
  (48 ≤ b && b ≤ 57) || (97 ≤ b && b ≤ 102) || (65 ≤ b && b ≤ 70)

/-- JSON whitespace: space, tab, carriage return, line feed (`isSpace`). -/
def isSpace (b : Nat) : Bool := b == 32 || b == 9 || b == 13 || b == 10

/-- One step of the scanner inside a number; `none` when the byte does not
continue the literal. -/
def numStep (s : NumState) (b : Nat) : Option NumState :=
  match s with
  | .neg => if b == 48 then some .zero else if 49 ≤ b && b ≤ 57 then some .int else none
  | .zero => if b == 46 then some .dot else if b == 101 || b == 69 then some .e else none
  | .int =>
    if isDigit b then some .int
    else if b == 46 then some .dot else if b == 101 || b == 69 then some .e else none
  | .dot => if isDigit b then some .frac else none
  | .frac => if isDigit b then some .frac else if b == 101 || b == 69 then some .e else none
  | .e => if b == 43 || b == 45 then some .eSign else if isDigit b then some .exp else none
  | .eSign => if isDigit b then some .exp else none
  | .exp => if isDigit b then some .exp else none

/-- The state of the tokenizer between two bytes. Accumulators are reversed. -/
inductive LexState where
  | idle
  | inStr (acc : Bytes)
  | inEsc (acc : Bytes)
  | inU (acc : Bytes) (k : Nat)
  | inNum (s : NumState) (acc : Bytes)
  | inLit (rest : Bytes) (tok : Token)
deriving DecidableEq, Repr

/-- A byte met between tokens: whitespace is skipped, punctuation is a token,
a quote, a digit, a minus sign or the first letter of a literal opens one. -/
def idleStep (b : Nat) : Option (List Token × LexState) :=
  if isSpace b then some ([], .idle)
  else if b == 123 then some ([.lbrace], .idle)
  else if b == 125 then some ([.rbrace], .idle)
  else if b == 91 then some ([.lbrack], .idle)
  else if b == 93 then some ([.rbrack], .idle)
  else if b == 58 then some ([.colon], .idle)
  else if b == 44 then some ([.comma], .idle)
  else if b == 34 then some ([], .inStr [])
  else if b == 45 then some ([], .inNum .neg [b])
  else if b == 48 then some ([], .inNum .zero [b])
  else if 49 ≤ b && b ≤ 57 then some ([], .inNum .int [b])
  else if b == 116 then some ([], .inLit [114, 117, 101] .tTrue)
  else if b == 102 then some ([], .inLit [97, 108, 115, 101] .tFalse)
  else if b == 110 then some ([], .inLit [117, 108, 108] .tNull)
  else none

/-- One byte of input. -/
def lexStep (st : LexState) (b : Nat) : Option (List Token × LexState) :=
  match st with
  | .idle => idleStep b
  | .inStr acc =>
    if b == 34 then some ([.str acc.reverse], .idle)
    else if b == 92 then some ([], .inEsc (b :: acc))
    else if b < 32 then none
    else some ([], .inStr (b :: acc))
  | .inEsc acc =>
    if b == 98 || b == 102 || b == 110 || b == 114 || b == 116
        || b == 92 || b == 47 || b == 34 then
      some ([], .inStr (b :: acc))
    else if b == 117 then some ([], .inU (b :: acc) 4)
    else none
  | .inU acc k =>
    if isHexDigit b then
      if k ≤ 1 then some ([], .inStr (b :: acc)) else some ([], .inU (b :: acc) (k - 1))
    else none
  | .inNum s acc =>
    match numStep s b with
    | some s' => some ([], .inNum s' (b :: acc))
    | none =>
      if s.accepting then
        match idleStep b with
        | some (toks, st') => some (.num acc.reverse :: toks, st')
        | none => none
      else none
  | .inLit rest tok =>
    match rest with
    | [] => none
    | [c] => if b == c then some ([tok], .idle) else none
    | c :: cs => if b == c then some ([], .inLit cs tok) else none

/-- The tokens of an input, `none` on a lexical error. -/
def lexFrom : LexState → Bytes → Option (List Token)
  | .idle, [] => some []
  | .inNum s acc, [] => if s.accepting then some [.num acc.reverse] else none
  | _, [] => none
  | st, b :: bs =>
    match lexStep st b with
    | none => none
    | some (toks, st') =>
      match lexFrom st' bs with
      | none => none
      | some more => some (toks ++ more)

def lex (data : Bytes) : Option (List Token) := lexFrom .idle data

/-! ## encoding/json: values -/

/-- A JSON value. Strings and object keys hold the raw bytes between the
quotes; they are unquoted when they are stored into a Go value. -/
inductive JValue where
  | null
  | bool (b : Bool)
  | num (lit : Bytes)
  | str (raw : Bytes)
  | arr (elems : List JValue)
  | obj (members : List (Bytes × JValue))
deriving Repr

/-- An enclosing container that waits for a value: an array with the elements
read so far, or an object with the members read so far and the pending key.
Both lists are reversed. -/
inductive Frame where
  | arr (elems : List JValue)
  | obj (members : List (Bytes × JValue)) (key : Bytes)

/-- What the parser expects next. -/
inductive Mode where
  | val
  | arrFirst
  | arrNext (elems : List JValue)
  | objFirst
  | objKey (members : List (Bytes × JValue))
  | objColon (members : List (Bytes × JValue)) (key : Bytes)
  | objNext (members : List (Bytes × JValue))
  | fin (v : JValue)

/-- The nesting limit of the scanner (`maxNestingDepth`). -/
def maxNestingDepth : Nat := 10000

/-- A value is complete: hand it to the innermost waiting container. -/
def deliver (v : JValue) : List Frame → Mode × List Frame
  | [] => (.fin v, [])
  | .arr es :: s => (.arrNext (v :: es), s)
  | .obj ms k :: s => (.objNext ((k, v) :: ms), s)

/-- A token where a value is expected. -/
def valStep (t : Token) (s : List Frame) : Option (Mode × List Frame) :=
  match t with
  | .tNull => some (deliver .null s)
  | .tTrue => some (deliver (.bool true) s)
  | .tFalse => some (deliver (.bool false) s)
  | .num l => some (deliver (.num l) s)
  | .str r => some (deliver (.str r) s)
  | .lbrack => if s.length + 1 ≤ maxNestingDepth then some (.arrFirst, s) else none
  | .lbrace => if s.length + 1 ≤ maxNestingDepth then some (.objFirst, s) else none
  | _ => none

/-- One token of input. -/
def parseStep (m : Mode) (s : List Frame) (t : Token) : Option (Mode × List Frame) :=
  match m with
  | .val => valStep t s
  | .arrFirst =>
    match t with
    | .rbrack => some (deliver (.arr []) s)
    | _ => valStep t (.arr [] :: s)
  | .arrNext es =>
    match t with
    | .comma => some (.val, .arr es :: s)
    | .rbrack => some (deliver (.arr es.reverse) s)
    | _ => none
  | .objFirst =>
    match t with
    | .rbrace => some (deliver (.obj []) s)
    | .str k => some (.objColon [] k, s)
    | _ => none
  | .objKey ms =>
    match t with
    | .str k => some (.objColon ms k, s)
    | _ => none
  | .objColon ms k =>
    match t with
    | .colon => some (.val, .obj ms k :: s)
    | _ => none
  | .objNext ms =>
    match t with
    | .comma => some (.objKey ms, s)
    | .rbrace => some (deliver (.obj ms.reverse) s)
    | _ => none
  | .fin _ => none

def parseFrom : Mode → List Frame → List Token → Option JValue
  | .fin v, [], [] => some v
  | _, _, [] => none
  | m, s, t :: ts =>
    match parseStep m s t with
    | none => none
    | some (m', s') => parseFrom m' s' ts

/-- The single JSON value an input consists of (`checkValid` accepts exactly
the inputs on which this is `some`). -/
def parseJSON (data : Bytes) : Option JValue :=
  match lex data with
  | none => none
  | some toks => parseFrom .val [] toks

/-! ## encoding/json: unquoting strings -/

/-- The value of a hexadecimal digit. -/
def hexVal (b : Nat) : Nat :=
  if 48 ≤ b && b ≤ 57 then b - 48
  else if 97 ≤ b && b ≤ 102 then b - 87
  else if 65 ≤ b && b ≤ 70 then b - 55
  else 0

/-- The UTF-8 encoding of U+FFFD, the replacement character. -/
def replacementChar : Bytes := [239, 191, 189]

/-- The UTF-8 encoding of a code point (`utf8.EncodeRune`); surrogates and
values above U+10FFFF are encoded as U+FFFD. -/
def encodeRune (r : Nat) : Bytes :=
  if r ≤ 127 then [r]
  else if r ≤ 2047 then [192 + r / 64, 128 + r % 64]
  else if 1114111 < r || (55296 ≤ r && r ≤ 57343) then replacementChar
  else if r ≤ 65535 then [224 + r / 4096, 128 + r / 64 % 64, 128 + r % 64]
  else [240 + r / 262144, 128 + r / 4096 % 64, 128 + r / 64 % 64, 128 + r % 64]

/-- For the first byte of a multi-byte UTF-8 sequence: the length of the
sequence and the range the second byte must lie in (the `first` and
`acceptRanges` tables of `unicode/utf8`). -/
def utf8Lead (c : Nat) : Option (Nat × Nat × Nat) :=
  if 194 ≤ c && c ≤ 223 then some (2, 128, 191)
  else if c == 224 then some (3, 160, 191)
  else if c == 237 then some (3, 128, 159)
  else if 225 ≤ c && c ≤ 239 then some (3, 128, 191)
  else if c == 240 then some (4, 144, 191)
  else if 241 ≤ c && c ≤ 243 then some (4, 128, 191)
  else if c == 244 then some (4, 128, 143)
  else none

def isCont (b : Nat) : Bool := 128 ≤ b && b ≤ 191

/-- The length of the valid multi-byte UTF-8 sequence that starts the input,
or `0` when the input starts with an invalid or truncated one
(`utf8.DecodeRune` then returns `RuneError` with width 1). -/
def utf8Width (s : Bytes) : Nat :=
  match s with
  | [] => 0
  | c :: tl =>
    match utf8Lead c with
    | none => 0
    | some (n, lo, hi) =>
      match tl with
      | [] => 0
      | b1 :: tl1 =>
        if lo ≤ b1 && b1 ≤ hi then
          if n == 2 then 2
          else
            match tl1 with
            | [] => 0
            | b2 :: tl2 =>
              if isCont b2 then
                if n == 3 then 3
                else
                  match tl2 with
                  | [] => 0
                  | b3 :: _ => if isCont b3 then 4 else 0
              else 0
        else 0

/-- The byte a one-letter escape stands for. -/
def simpleEscape (e : Nat) : Option Nat :=
  if e == 34 || e == 92 || e == 47 || e == 39 then some e
  else if e == 98 then some 8
  else if e == 102 then some 12
  else if e == 110 then some 10
  else if e == 114 then some 13
  else if e == 116 then some 9
  else none

/-- The code unit of a `\uXXXX` escape at the start of the input (`getu4`). -/
def getu4 (s : Bytes) : Option Nat :=
  match s with
  | x :: y :: a :: b :: c :: d :: _ =>
    if x == 92 && y == 117 && isHexDigit a && isHexDigit b && isHexDigit c && isHexDigit d then
      some (hexVal a * 4096 + hexVal b * 256 + hexVal c * 16 + hexVal d)
    else none
  | _ => none

/-- A UTF-16 surrogate (`utf16.IsSurrogate`). -/
def isSurrogate (r : Nat) : Bool := 55296 ≤ r && r < 57344

/-- The code point of a surrogate pair, `none` when the two units are not a
high surrogate followed by a low one (`utf16.DecodeRune`). -/
def decodeSurrogates (r1 r2 : Nat) : Option Nat :=
  if 55296 ≤ r1 && r1 < 56320 && 56320 ≤ r2 && r2 < 57344 then
    some ((r1 - 55296) * 1024 + (r2 - 56320) + 65536)
  else none

/-- The Go string a raw JSON string stands for (`unquoteBytes` applied to the
bytes between the quotes): escapes are decoded, a lone surrogate escape and
every byte that does not start a valid UTF-8 sequence become U+FFFD. `none`
when the raw string is malformed, which does not happen on a token of the
scanner. The first argument counts bytes still to skip: the six bytes of the
second escape of a surrogate pair, which are consumed with the first. -/
def unquoteFrom : Nat → Bytes → Option Bytes
  | _, [] => some []
  | k + 1, _ :: tl => unquoteFrom k tl
  | 0, c :: tl =>
    if c == 92 then
      match tl with
      | [] => none
      | e :: tl1 =>
        if e == 117 then
          match tl1 with
          | a :: b :: h :: d :: tl2 =>
            if isHexDigit a && isHexDigit b && isHexDigit h && isHexDigit d then
              let rr := hexVal a * 4096 + hexVal b * 256 + hexVal h * 16 + hexVal d
              if isSurrogate rr then
                match (getu4 tl2).bind (decodeSurrogates rr) with
                | some dec => (unquoteFrom 6 tl2).map (encodeRune dec ++ ·)
                | none => (unquoteFrom 0 tl2).map (replacementChar ++ ·)
              else (unquoteFrom 0 tl2).map (encodeRune rr ++ ·)
            else none
          | _ => none
        else
          match simpleEscape e with
          | some b => (unquoteFrom 0 tl1).map (b :: ·)
          | none => none
    else if c == 34 || c < 32 then none
    else if c < 128 then (unquoteFrom 0 tl).map (c :: ·)
    else
      match utf8Width (c :: tl) with
      | 0 => (unquoteFrom 0 tl).map (replacementChar ++ ·)
      | w + 1 => (unquoteFrom w tl).map (c :: tl.take w ++ ·)

def unquote (raw : Bytes) : Option Bytes := unquoteFrom 0 raw

/-! ## strconv: numbers -/

/-- The number a sequence of decimal digits stands for. -/
def digitsToNat (ds : Bytes) : Nat := ds.foldl (fun acc d => acc * 10 + (d - 48)) 0

/-- The value of `strconv.ParseInt(lit, 10, 64)`: an optional sign and
decimal digits, within the range of `int64`; `none` stands for its error. -/
def parseInt64 (lit : Bytes) : Option Int :=
  let neg := lit.head? == some 45
  let ds := if neg || lit.head? == some 43 then lit.tail else lit
  if ds.isEmpty || !ds.all isDigit then none
  else
    let n := digitsToNat ds
    if neg then (if n ≤ 9223372036854775808 then some (-(n : Int)) else none)
    else (if n ≤ 9223372036854775807 then some (n : Int) else none)

/-- A finite IEEE 754 binary64 number: `(-1)^neg * mant * 2^exp`, with
`mant < 2^53` and `-1074 ≤ exp ≤ 971`, and with `2^52 ≤ mant` unless
`exp = -1074` (so every number has one representation). -/
structure Float64 where
  neg : Bool
  mant : Nat
  exp : Int
deriving DecidableEq, Repr

/-- The `float64` zero value. -/
def Float64.zero : Float64 := ⟨false, 0, -1074⟩

/-- The `float64` value `-1`. -/
def Float64.minusOne : Float64 := ⟨true, 4503599627370496, -52⟩

/-- The number of halvings that bring `n` below 2: the floor of its binary
logarithm. The first argument bounds the number of steps. -/
def log2Floor : Nat → Nat → Nat
  | 0, _ => 0
  | f + 1, n => if n < 2 then 0 else log2Floor f (n / 2) + 1

/-- Whether `2^k ≤ n / d`. -/
def geTwoPow (n d : Nat) (k : Int) : Bool :=
  if 0 ≤ k then d * 2 ^ k.toNat ≤ n else d ≤ n * 2 ^ (-k).toNat

/-- The binary64 number nearest to `n / d` (ties to the even mantissa),
`none` when it is beyond the largest finite one. -/
def roundFloat64 (neg : Bool) (n d : Nat) : Option Float64 :=
  if n == 0 then some ⟨neg, 0, -1074⟩
  else
    let k : Int := (log2Floor n n : Int) - (log2Floor d d : Int)
    let fl : Int := if geTwoPow n d k then k else k - 1
    let e : Int := max (fl - 52) (-1074)
    let num := if 0 ≤ e then n else n * 2 ^ (-e).toNat
    let den := if 0 ≤ e then d * 2 ^ e.toNat else d
    let q := num / den
    let r := num % den
    let m := if 2 * r < den then q else if den < 2 * r then q + 1 else q + q % 2
    let m' := if m == 9007199254740992 then 4503599627370496 else m
    let e' := if m == 9007199254740992 then e + 1 else e
    if 971 < e' then none else some ⟨neg, m', e'⟩

/-- The value of `strconv.ParseFloat(lit, 64)` on a JSON number literal: the
nearest binary64 number, `none` (its range error) when the literal is more
than half a unit in the last place beyond the largest finite one. -/
def parseFloat64 (lit : Bytes) : Option Float64 :=
  let neg := lit.head? == some 45
  let s0 := if neg then lit.tail else lit
  let intDs := s0.takeWhile isDigit
  let s1 := s0.dropWhile isDigit
  let fracDs := if s1.head? == some 46 then s1.tail.takeWhile isDigit else []
  let s2 := if s1.head? == some 46 then s1.tail.dropWhile isDigit else s1
  let s3 := s2.tail
  let eneg := s3.head? == some 45
  let expDs := if eneg || s3.head? == some 43 then s3.tail else s3
  let x : Int := if eneg then -(digitsToNat expDs : Int) else (digitsToNat expDs : Int)
  let p : Int := x - (fracDs.length : Int)
  let m := digitsToNat (intDs ++ fracDs)
  if 0 ≤ p then roundFloat64 neg (m * 10 ^ p.toNat) 1
  else roundFloat64 neg m (10 ^ (-p).toNat)

/-! ## encoding/json: Unmarshal into the target types of the client -/

/-- The two errors of `json.Unmarshal`: the input is not one JSON value
(`*json.SyntaxError`), or a JSON value does not fit the Go value it is stored
into (`*json.UnmarshalTypeError`). -/
inductive JSONError where
  | syntaxError
  | typeError
deriving DecidableEq, Repr

deriving instance DecidableEq for Except

/-- The folded form of an object key, under which it is compared with the
field names when no field has exactly the key as its name (`foldName`): ASCII
letters in upper case, U+017F (long s) as `S`, U+212A (Kelvin sign) as `K`.
Other non-ASCII bytes are kept; the field names of the client are ASCII, so a
key with such a byte matches none of them, as in Go. -/
def foldName : Nat → Bytes → Bytes
  | _, [] => []
  | k + 1, _ :: tl => foldName k tl
  | 0, c :: tl =>
    if 97 ≤ c && c ≤ 122 then (c - 32) :: foldName 0 tl
    else if c == 197 && tl.head? == some 191 then 83 :: foldName 1 tl
    else if c == 226 && tl.take 2 == [132, 170] then 75 :: foldName 2 tl
    else c :: foldName 0 tl

/-- Whether an object key selects the field with this name. -/
def keyMatches (name key : Bytes) : Bool :=
  key == name || foldName 0 key == foldName 0 name

/-- Store a JSON value into a Go `int` (64 bits): a number must be an integer
literal in range, `null` leaves the old value. -/
def storeInt (v : JValue) (old : Int) : Except JSONError Int :=
  match v with
  | .null => .ok old
  | .num lit =>
    match parseInt64 lit with
    | some n => .ok n
    | none => .error .typeError
  | _ => .error .typeError

/-- Store a JSON value into a Go `string`; `null` leaves the old value. -/
def storeString (v : JValue) (old : Bytes) : Except JSONError Bytes :=
  match v with
  | .null => .ok old
  | .str raw =>
    match unquote raw with
    | some t => .ok t
    | none => .error .syntaxError
  | _ => .error .typeError

/-- Store a JSON value into a Go `*string`; `null` stores the nil pointer. -/
def storeStringPtr (v : JValue) : Except JSONError (Option Bytes) :=
  match v with
  | .null => .ok none
  | .str raw =>
    match unquote raw with
    | some t => .ok (some t)
    | none => .error .syntaxError
  | _ => .error .typeError

/-- The result of `json.Unmarshal(data, &value)` for `var value float64`:
a number is stored if `strconv.ParseFloat` accepts it, `null` leaves the zero
value and is no error, every other value is a type error. -/
def unmarshalFloat64 (data : Bytes) : Except JSONError Float64 :=
  match parseJSON data with
  | none => .error .syntaxError
  | some .null => .ok Float64.zero
  | some (.num lit) =>
    match parseFloat64 lit with
    | some f => .ok f
    | none => .error .typeError
  | some _ => .error .typeError

/-- The result of `json.Unmarshal(data, &value)` for `var value []string`:
an array of strings (a `null` element leaves the empty string), or `null`,
which leaves the nil slice. -/
def unmarshalStrings (data : Bytes) : Except JSONError (List Bytes) :=
  match parseJSON data with
  | none => .error .syntaxError
  | some .null => .ok []
  | some (.arr elems) => elems.mapM (fun v => storeString v [])
  | some _ => .error .typeError

/-- The Go type `sTelecomErrorResponse`: the error envelope of the gateway. -/
structure sTelecomErrorResponse where
  Code : Int
  Desc : Bytes
deriving DecidableEq, Repr

/-- One member of a JSON object stored into a `sTelecomErrorResponse`. -/
def storeErrorResponseField (r : sTelecomErrorResponse) (m : Bytes × JValue) :
    Except JSONError sTelecomErrorResponse :=
  match unquote m.1 with
  | none => .error .syntaxError
  | some key =>
    if keyMatches (ascii "code") key then
      (storeInt m.2 r.Code).map (fun n => { r with Code := n })
    else if keyMatches (ascii "desc") key then
      (storeString m.2 r.Desc).map (fun t => { r with Desc := t })
    else .ok r

/-- The result of `json.Unmarshal(data, &errResp)` for
`var errResp sTelecomErrorResponse`. -/
def unmarshalErrorResponse (data : Bytes) : Except JSONError sTelecomErrorResponse :=
  match parseJSON data with
  | none => .error .syntaxError
  | some .null => .ok ⟨0, []⟩
  | some (.obj ms) => ms.foldlM storeErrorResponseField ⟨0, []⟩
  | some _ => .error .typeError

/-- The Go type `sTelecomGetSmsStatusResponse`. -/
structure sTelecomGetSmsStatusResponse where
  State : Int
  ReportedDateUtc : Option Bytes
  CreationDateUtc : Option Bytes
  SubmittedDateUtc : Option Bytes
  TimeStampUtc : Option Bytes
  StateDescription : Bytes
  Price : Option Bytes
deriving DecidableEq, Repr

/-- One member of a JSON object stored into a `sTelecomGetSmsStatusResponse`. -/
def storeStatusField (r : sTelecomGetSmsStatusResponse) (m : Bytes × JValue) :
    Except JSONError sTelecomGetSmsStatusResponse :=
  match unquote m.1 with
  | none => .error .syntaxError
  | some key =>
    if keyMatches (ascii "State") key then
      (storeInt m.2 r.State).map (fun n => { r with State := n })
    else if keyMatches (ascii "ReportedDateUtc") key then
      (storeStringPtr m.2).map (fun t => { r with ReportedDateUtc := t })
    else if keyMatches (ascii "CreationDateUtc") key then
      (storeStringPtr m.2).map (fun t => { r with CreationDateUtc := t })
    else if keyMatches (ascii "SubmittedDateUtc") key then
      (storeStringPtr m.2).map (fun t => { r with SubmittedDateUtc := t })
    else if keyMatches (ascii "TimeStampUtc") key then
      (storeStringPtr m.2).map (fun t => { r with TimeStampUtc := t })
    else if keyMatches (ascii "StateDescription") key then
      (storeString m.2 r.StateDescription).map (fun t => { r with StateDescription := t })
    else if keyMatches (ascii "Price") key then
      (storeStringPtr m.2).map (fun t => { r with Price := t })
    else .ok r

/-- The result of `json.Unmarshal(data, &value)` for
`var value sTelecomGetSmsStatusResponse`. -/
def unmarshalSmsStatus (data : Bytes) : Except JSONError sTelecomGetSmsStatusResponse :=
  match parseJSON data with
  | none => .error .syntaxError
  | some .null => .ok ⟨0, none, none, none, none, [], none⟩
  | some (.obj ms) => ms.foldlM storeStatusField ⟨0, none, none, none, none, [], none⟩
  | some _ => .error .typeError

/-! ## strings -/

/-- The value of `strings.Replace(s, "\"", "", -1)`: every quote removed. -/
def removeQuotes (s : Bytes) : Bytes := s.filter (fun b => b != 34)

/-- The value of `strings.ToLower(s)`. A string of ASCII bytes has its
letters `A` to `Z` replaced; any other string goes through
`strings.Map(unicode.ToLower, s)`, the argument `unicodeLower`. -/
def ToLower (unicodeLower : Bytes → Bytes) (s : Bytes) : Bytes :=
  if s.all (fun c => c < 128) then s.map (fun c => if 65 ≤ c && c ≤ 90 then c + 32 else c)
  else unicodeLower s

/-! ## net/url -/

/-- The digits of `upperhex`. -/
def upperhex (n : Nat) : Nat := if n < 10 then 48 + n else 55 + n

/-- Bytes that `url.QueryEscape` keeps: letters, digits, `-`, `_`, `.`, `~`. -/
def isUnreserved (c : Nat) : Bool :=
  (97 ≤ c && c ≤ 122) || (65 ≤ c && c ≤ 90) || (48 ≤ c && c ≤ 57)
    || c == 45 || c == 95 || c == 46 || c == 126

/-- The value of `url.QueryEscape(s)`. -/
def QueryEscape : Bytes → Bytes
  | [] => []
  | c :: tl =>
    if isUnreserved c then c :: QueryEscape tl
    else if c == 32 then 43 :: QueryEscape tl
    else 37 :: upperhex (c / 16 % 16) :: upperhex (c % 16) :: QueryEscape tl

/-- Lexicographic order on byte strings, the order of `sort.Strings`. -/
def bytesLE : Bytes → Bytes → Bool
  | [], _ => true
  | _ :: _, [] => false
  | a :: as, b :: bs => a < b || (a == b && bytesLE as bs)

/-- Insert a key with its values into a list sorted by key. -/
def insertByKey (kv : Bytes × List Bytes) : List (Bytes × List Bytes) → List (Bytes × List Bytes)
  | [] => [kv]
  | x :: xs => if bytesLE kv.1 x.1 then kv :: x :: xs else x :: insertByKey kv xs

/-- The Go type `url.Values`, a map from keys to lists of values, as the list
of its entries (the keys are distinct). -/
abbrev Values := List (Bytes × List Bytes)

/-- The pairs `key=value` of one key. -/
def encodePairs (k : Bytes) (vs : List Bytes) : List Bytes :=
  vs.map (fun v => QueryEscape k ++ [61] ++ QueryEscape v)

/-- The value of `v.Encode()`: the pairs `key=value`, escaped, sorted by key
and joined by `&`. -/
def Values.Encode (v : Values) : Bytes :=
  [38].intercalate ((v.foldr insertByKey []).flatMap (fun kv => encodePairs kv.1 kv.2))

/-! ## net/url: reading a form

The receiver of a request reads its form with `url.ParseQuery`. The client
does not call it; it states what a form carries. -/

/-- The pieces of a byte string between the occurrences of a separator
(`strings.Split`). -/
def splitBytes (sep : Nat) : Bytes → List Bytes
  | [] => [[]]
  | c :: tl =>
    if c == sep then [] :: splitBytes sep tl
    else
      match splitBytes sep tl with
      | [] => [[c]]
      | p :: ps => (c :: p) :: ps

/-- The parts before and after the first occurrence of a separator
(`strings.Cut`). -/
def cutBytes (sep : Nat) (s : Bytes) : Bytes × Bytes :=
  (s.takeWhile (fun b => b != sep), (s.dropWhile (fun b => b != sep)).tail)

/-- The value of `url.QueryUnescape(s)`, `none` for its error. -/
def QueryUnescape : Bytes → Option Bytes
  | [] => some []
  | c :: tl =>
    if c == 37 then
      match tl with
      | a :: b :: r =>
        if isHexDigit a && isHexDigit b then
          (QueryUnescape r).map (fun t => (hexVal a * 16 + hexVal b) :: t)
        else none
      | _ => none
    else if c == 43 then (QueryUnescape tl).map (fun t => 32 :: t)
    else (QueryUnescape tl).map (fun t => c :: t)

/-- One piece `key=value` of a form. -/
def parsePair (part : Bytes) : Option (Bytes × Bytes) :=
  if part.contains 59 then none
  else
    match QueryUnescape (cutBytes 61 part).1, QueryUnescape (cutBytes 61 part).2 with
    | some k, some v => some (k, v)
    | _, _ => none

/-- The fields of a form in the order they are written (`url.ParseQuery`
collects them into a map), `none` for its error. -/
def parseQuery (query : Bytes) : Option (List (Bytes × Bytes)) :=
  ((splitBytes 38 query).filter (fun part => !part.isEmpty)).mapM parsePair

/-- The encoding `key=value` of one field of a form, as `Values.Encode`
writes it. -/
def encodeField (kv : Bytes × Bytes) : Bytes := QueryEscape kv.1 ++ [61] ++ QueryEscape kv.2

/-! ## net/http: the network -/

/-- An error of the transport: a refused connection, a timeout, a reset. -/
structure NetError where
  text : String
deriving DecidableEq, Repr

/-- The method of a request. -/
inductive Method where
  | GET
  | POST
deriving DecidableEq, Repr

/-- What the client hands to `http.Client`: `Get(url)` or
`Post(url, contentType, body)`. -/
structure Request where
  method : Method
  url : Bytes
  contentType : Bytes
  body : Bytes
deriving DecidableEq, Repr

/-- The body of a response as a stream: the bytes it delivers, and the error
that ends it in place of the end of the stream, if any. -/
structure Body where
  data : Bytes
  err : Option NetError
deriving DecidableEq, Repr

/-- What `http.Client` returns: an error, or a response. -/
inductive Reply where
  | transportError (e : NetError)
  | response (status : Nat) (body : Body)
deriving DecidableEq, Repr

/-- The gateway as the client sees it. -/
abbrev Gateway := Request → Reply

/-- The result of `ioutil.ReadAll(body)`. -/
def ReadAll (body : Body) : Except NetError Bytes :=
  match body.err with
  | none => .ok body.data
  | some e => .error e

/-- The result of `ioutil.ReadAll(io.LimitReader(body, n))`: once `n` bytes
are read the limited reader reports the end of the stream and does not read
the body any further. -/
def ReadAllLimit (n : Nat) (body : Body) : Except NetError Bytes :=
  if n ≤ body.data.length then .ok (body.data.take n) else ReadAll body

/-! ## The client -/

/-- The errors the client returns. -/
inductive GoError where
  | notAuthorized
  | transport (e : NetError)
  | read (e : NetError)
  | json (e : JSONError)
  | httpStatus (code : Nat)
  | httpStatusRead (code : Nat) (e : NetError)
deriving DecidableEq, Repr

def header : Bytes := ascii "GLAVFINANS"

def SessionIDExpired : Int := 4

def DirectionIsClosed : Int := 5

def SmsStatusDelivered : Bytes := ascii "delivered"

def StatusOK : Nat := 200

def StatusPaymentRequired : Nat := 402

def StatusInternalServerError : Nat := 500

structure Sms where
  Phone : Bytes
  Text : Bytes
deriving DecidableEq, Repr

structure stClient where
  timeout : Int
  basePath : Bytes
  login : Bytes
  password : Bytes
  sessionID : Bytes
  header : Bytes
deriving DecidableEq, Repr

def NewClient (basePath : Bytes) (timeout : Int) : stClient :=
  { timeout := timeout, basePath := basePath, login := [], password := [],
    sessionID := [], header := [] }

def NewDefaultClient : stClient :=
  NewClient (ascii "http://gateway.api.sc/rest") (10 * 1000000000)

/-- The sample message of the tests; its text is `Тестовая SMS` in UTF-8. -/
def getValidSmsForSend : Sms :=
  { Phone := ascii "71234567890",
    Text := [208, 162, 208, 181, 209, 129, 209, 130, 208, 190, 208, 178, 208, 176, 209, 143,
      32, 83, 77, 83] }

/-- The result of an operation together with the requests it sent. -/
structure Call (α : Type) where
  result : α
  sent : List Request
deriving DecidableEq, Repr

def GetSessionID (c : stClient) : Bytes := c.sessionID

/-- The request of `GetBalance`. -/
def balanceRequest (c : stClient) : Request :=
  { method := .GET,
    url := c.basePath ++ ascii "/Balance?" ++ Values.Encode [(ascii "sessionId", [c.sessionID])],
    contentType := [], body := [] }

def GetBalance (c : stClient) (gw : Gateway) : Call (Float64 × Option GoError) :=
  if c.sessionID = [] then ⟨(Float64.minusOne, some .notAuthorized), []⟩
  else
    let req := balanceRequest c
    match gw req with
    | .transportError e => ⟨(Float64.minusOne, some (.transport e)), [req]⟩
    | .response _ body =>
      match ReadAllLimit 2048 body with
      | .error e => ⟨(Float64.minusOne, some (.read e)), [req]⟩
      | .ok data =>
        match unmarshalFloat64 data with
        | .error e => ⟨(Float64.minusOne, some (.json e)), [req]⟩
        | .ok value => ⟨(value, none), [req]⟩

structure responseFromSendSms where
  HTTPStatusCode : Nat
  SmsIds : List Bytes
  ResponseError : sTelecomErrorResponse
  Error : Option GoError
deriving DecidableEq, Repr

/-- The form of `SendSms`. -/
def sendSmsValues (c : stClient) (sms : Sms) : Values :=
  [ (ascii "sessionId", [c.sessionID]),
    (ascii "destinationAddress", [sms.Phone]),
    (ascii "data", [sms.Text]),
    (ascii "validity", [ascii "1440"]),
    (ascii "sourceAddress", [c.header]) ]

/-- The request of `SendSms`. -/
def sendSmsRequest (c : stClient) (sms : Sms) : Request :=
  { method := .POST,
    url := c.basePath ++ ascii "/Send/SendSms/",
    contentType := ascii "application/x-www-form-urlencoded",
    body := (sendSmsValues c sms).Encode }

def SendSms (c : stClient) (sms : Sms) (gw : Gateway) : Call responseFromSendSms :=
  let req := sendSmsRequest c sms
  match gw req with
  | .transportError e =>
    ⟨⟨StatusInternalServerError, [], ⟨0, []⟩, some (.transport e)⟩, [req]⟩
  | .response status body =>
    match ReadAll body with
    | .error e => ⟨⟨StatusInternalServerError, [], ⟨0, []⟩, some (.read e)⟩, [req]⟩
    | .ok data =>
      if status ≠ StatusOK then
        match unmarshalErrorResponse data with
        | .error e => ⟨⟨StatusInternalServerError, [], ⟨0, []⟩, some (.json e)⟩, [req]⟩
        | .ok errResp =>
          if errResp.Code = DirectionIsClosed then
            ⟨⟨StatusPaymentRequired, [], errResp, none⟩, [req]⟩
          else ⟨⟨StatusInternalServerError, [], errResp, none⟩, [req]⟩
      else
        match unmarshalStrings data with
        | .error e => ⟨⟨StatusInternalServerError, [], ⟨0, []⟩, some (.json e)⟩, [req]⟩
        | .ok value => ⟨⟨StatusOK, value, ⟨0, []⟩, none⟩, [req]⟩

/-- The request of `Authorize`. -/
def authorizeRequest (c : stClient) (login password : Bytes) : Request :=
  { method := .GET,
    url := c.basePath ++ ascii "/Session?"
      ++ Values.Encode [(ascii "login", [login]), (ascii "password", [password])],
    contentType := [], body := [] }

/-- The method `Authorize` has a pointer receiver: it returns the client it
leaves behind next to its results. -/
def Authorize (c : stClient) (login password : Bytes) (gw : Gateway) :
    stClient × Call (Bytes × Option GoError) :=
  let c1 := { c with login := login, password := password, header := header, sessionID := [] }
  let req := authorizeRequest c1 login password
  match gw req with
  | .transportError e => (c1, ⟨([], some (.transport e)), [req]⟩)
  | .response _ body =>
    match ReadAllLimit 2048 body with
    | .error e => (c1, ⟨([], some (.read e)), [req]⟩)
    | .ok data =>
      let c2 := { c1 with sessionID := removeQuotes data }
      (c2, ⟨(c2.sessionID, none), [req]⟩)

/-- The request of `GetSmsStatus`. -/
def smsStatusRequest (c : stClient) (smsID : Bytes) : Request :=
  { method := .GET,
    url := c.basePath ++ ascii "/State?"
      ++ Values.Encode [(ascii "sessionId", [c.sessionID]), (ascii "messageId", [smsID])],
    contentType := [], body := [] }

def GetSmsStatus (unicodeLower : Bytes → Bytes) (c : stClient) (smsID : Bytes) (gw : Gateway) :
    Call (Bytes × Option GoError) :=
  let req := smsStatusRequest c smsID
  match gw req with
  | .transportError e => ⟨([], some (.transport e)), [req]⟩
  | .response status body =>
    match ReadAll body with
    | .error e => ⟨([], some (.httpStatusRead status e)), [req]⟩
    | .ok data =>
      if status ≠ StatusOK then
        match unmarshalErrorResponse data with
        | .error e => ⟨([], some (.json e)), [req]⟩
        | .ok _ => ⟨([], some (.httpStatus status)), [req]⟩
      else
        match unmarshalSmsStatus data with
        | .error e => ⟨([], some (.json e)), [req]⟩
        | .ok value => ⟨(ToLower unicodeLower value.StateDescription, none), [req]⟩


/-! ## Test doubles

The gateways and the replies of the mock server of the repository
(`mock/mock.go`). -/

/-- A gateway that answers every request with the same status and body. -/
def constGateway (status : Nat) (data : Bytes) : Gateway :=
  fun _ => .response status ⟨data, none⟩

/-- A gateway that does not answer in time. -/
def timeoutGateway : Gateway := fun _ => .transportError ⟨"Client.Timeout exceeded"⟩

/-- A client with a session. -/
def testClient : stClient :=
  { timeout := 100000000, basePath := ascii "http://127.0.0.1:8080", login := ascii "login",
    password := ascii "password", sessionID := ascii "5f9df3e9733582f614a0b460a3e47d77",
    header := header }

/-- The reply of the mock server to `SmsSendNoMoney`. -/
def mockNoMoneyBody : Bytes := ascii "\x7b\"Code\":5,\"Desc\":\"Direction is closed\"\x7d"

/-- The reply of the mock server to `SmsSendNotAuthorized` and to
`SmsGetStatusNotAuthorized`. -/
def mockNotAuthorizedBody : Bytes := ascii "\x7b\"Code\":4,\"Desc\":\"SessionID expired\"\x7d"

/-- The reply of the mock server to `SmsSendOk`. -/
def mockSendOkBody : Bytes := ascii "[\"1404497075\"]"

/-- The reply of the mock server to valid credentials. -/
def mockSessionBody : Bytes := ascii "\"5f9df3e9733582f614a0b460a3e47d77\""

/-- The reply of the mock server to `SmsBalanceLargeData`: the JSON string of
2049 letters `s`, 2051 bytes. -/
def mockLargeBody : Bytes := 34 :: (List.replicate 2049 115 ++ [34])

/-- The reply of the mock server to `SmsGetStatusBadRequest`. -/
def mockBadRequestBody : Bytes :=
  ascii ("\x7b\"Code\":1,\"Desc\":\"MessageID can not be null or empty\\r\\n"
    ++ "Parameter name: messageId\"\x7d")

/-- The reply of the mock server to `SmsGetStatusOK`. -/
def mockStatusBody : Bytes :=
  ascii ("\x7b\n\"State\":0,\n\"ReportedDateUtc\":\"\\/Date(1440744480000)\\/\",\n"
    ++ "\"StateDescription\":\"delivered\",\n\"Price\":\"1.130\"\n\x7d")

/-- A status record without dates and with the price `null`. -/
def sparseStatusBody : Bytes :=
  ascii "\x7b\"State\":2,\"StateDescription\":\"Delivered\",\"Price\":null\x7d"

/-- A body of 2049 bytes that is the JSON number 12 after 2047 spaces. -/
def paddedBalanceBody : Bytes := List.replicate 2047 32 ++ ascii "12"

/-! ## The words of the specification -/

/-- The words of the specification for the session token: the body with its
surrounding quote characters stripped, that is without a quote at its start
and without a quote at its end. -/
def stripSurroundingQuotes (s : Bytes) : Bytes :=
  let t := if s.head? = some 34 then s.tail else s
  if t.getLast? = some 34 then t.dropLast else t

/-! ## SendSms: the classification of the reply -/

/-- C1: when the gateway answers `SendSms` with a status outside 200..299 and
a body that decodes as an error envelope, the result has no error, carries
exactly the decoded envelope and no identifiers, and its status is 402 when
the code of the envelope is 5 (`DirectionIsClosed`) and 500 otherwise. -/
theorem SendSms_gateway_rejection (c : stClient) (sms : Sms) (gw : Gateway) (status : Nat)
    (data : Bytes) (env : sTelecomErrorResponse)
    (hreply : gw (sendSmsRequest c sms) = .response status ⟨data, none⟩)
    (hstatus : status < 200 ∨ 299 < status)
    (hdecode : unmarshalErrorResponse data = .ok env) :
    (SendSms c sms gw).result =
      ⟨if env.Code = DirectionIsClosed then 402 else 500, [], env, none⟩ := by
  have hne : status ≠ StatusOK := by
    unfold StatusOK
    omega
  unfold SendSms
  simp only [hreply, ReadAll, hne, hdecode, ne_eq, not_false_eq_true, if_true]
  split <;> rfl

/-- C1 at the reply of the mock server to `SmsSendNoMoney`. -/
theorem SendSms_gateway_rejection_witness :
    (constGateway 402 mockNoMoneyBody
        (sendSmsRequest testClient getValidSmsForSend)
      = .response 402 ⟨mockNoMoneyBody, none⟩
    ∧ ((402 : Nat) < 200 ∨ 299 < (402 : Nat))
    ∧ unmarshalErrorResponse mockNoMoneyBody
      = .ok ⟨5, ascii "Direction is closed"⟩)
    ∧ (SendSms testClient getValidSmsForSend
        (constGateway 402 mockNoMoneyBody)).result
      = ⟨402, [], ⟨5, ascii "Direction is closed"⟩, none⟩ :=
  ⟨⟨rfl, Or.inr (by decide), by decide⟩,
   SendSms_gateway_rejection testClient getValidSmsForSend _ 402 _ ⟨5, ascii "Direction is closed"⟩
     rfl (Or.inr (by decide)) (by decide)⟩


/-- C2 as stated fails: a reply with status 201 is a 2xx reply and its body
is an array of strings, yet the result has status 500 and an error. -/
theorem SendSms_status_201_not_success :
    (200 ≤ (201 : Nat) ∧ (201 : Nat) ≤ 299)
    ∧ unmarshalStrings mockSendOkBody = .ok [ascii "1404497075"]
    ∧ (SendSms testClient getValidSmsForSend
        (constGateway 201 mockSendOkBody)).result
      = ⟨500, [], ⟨0, []⟩, some (.json .typeError)⟩ := by
  decide

/-- C2, amended: when the gateway answers `SendSms` with status 200 and a
body that decodes as an array of strings, the result has status 200, the
decoded identifiers, the zero envelope and no error. -/
theorem SendSms_success (c : stClient) (sms : Sms) (gw : Gateway) (data : Bytes)
    (ids : List Bytes)
    (hreply : gw (sendSmsRequest c sms) = .response 200 ⟨data, none⟩)
    (hdecode : unmarshalStrings data = .ok ids) :
    (SendSms c sms gw).result = ⟨200, ids, ⟨0, []⟩, none⟩ := by
  unfold SendSms
  simp only [hreply, ReadAll, hdecode, StatusOK, ne_eq, not_true_eq_false, if_false]

/-- C2, amended, at the reply of the mock server to `SmsSendOk`. -/
theorem SendSms_success_witness :
    (constGateway 200 mockSendOkBody (sendSmsRequest testClient getValidSmsForSend)
      = .response 200 ⟨mockSendOkBody, none⟩
    ∧ unmarshalStrings mockSendOkBody = .ok [ascii "1404497075"])
    ∧ (SendSms testClient getValidSmsForSend (constGateway 200 mockSendOkBody)).result
      = ⟨200, [ascii "1404497075"], ⟨0, []⟩, none⟩ :=
  ⟨⟨rfl, by decide⟩,
   SendSms_success testClient getValidSmsForSend _ _ [ascii "1404497075"] rfl (by decide)⟩

/-- C3 as stated fails: a reply with status 201 is a 2xx reply, on the success
path of the specification, and its body does not decode as an array of
strings; yet the body is decoded as an error envelope and the result has
status 402, the envelope of the body and no error. -/
theorem SendSms_status_201_envelope_no_error :
    (200 ≤ (201 : Nat) ∧ (201 : Nat) ≤ 299)
    ∧ unmarshalStrings mockNoMoneyBody = .error .typeError
    ∧ (SendSms testClient getValidSmsForSend (constGateway 201 mockNoMoneyBody)).result
      = ⟨402, [], ⟨5, ascii "Direction is closed"⟩, none⟩ := by
  decide

/-- C3, amended: when `SendSms` cannot complete the call, that is the
transport fails, the body cannot be read, or the body does not decode (as an
error envelope when the status is not 200, as an array of strings when it is
exactly 200), the result has status 500, no identifiers, the zero envelope
and an error. -/
theorem SendSms_local_failure (c : stClient) (sms : Sms) (gw : Gateway)
    (h : (∃ e, gw (sendSmsRequest c sms) = .transportError e)
      ∨ (∃ status body e, gw (sendSmsRequest c sms) = .response status body
          ∧ ReadAll body = .error e)
      ∨ (∃ status body data e, gw (sendSmsRequest c sms) = .response status body
          ∧ ReadAll body = .ok data ∧ status ≠ 200 ∧ unmarshalErrorResponse data = .error e)
      ∨ (∃ body data e, gw (sendSmsRequest c sms) = .response 200 body
          ∧ ReadAll body = .ok data ∧ unmarshalStrings data = .error e)) :
    (SendSms c sms gw).result.HTTPStatusCode = 500
    ∧ (SendSms c sms gw).result.SmsIds = []
    ∧ (SendSms c sms gw).result.ResponseError = ⟨0, []⟩
    ∧ (SendSms c sms gw).result.Error ≠ none := by
  unfold SendSms
  rcases h with ⟨e, h⟩ | ⟨status, body, e, h, hr⟩ | ⟨status, body, data, e, h, hr, hs, hd⟩
    | ⟨body, data, e, h, hr, hd⟩
  · simp [h, StatusInternalServerError]
  · simp [h, hr, StatusInternalServerError]
  · simp [h, hr, hs, hd, StatusOK, StatusInternalServerError]
  · simp [h, hr, hd, StatusOK, StatusInternalServerError]

/-- C3, amended, at a gateway that does not answer in time. -/
theorem SendSms_local_failure_witness :
    (∃ e, timeoutGateway (sendSmsRequest testClient getValidSmsForSend) = .transportError e)
    ∧ (SendSms testClient getValidSmsForSend timeoutGateway).result.HTTPStatusCode = 500
    ∧ (SendSms testClient getValidSmsForSend timeoutGateway).result.SmsIds = []
    ∧ (SendSms testClient getValidSmsForSend timeoutGateway).result.ResponseError = ⟨0, []⟩
    ∧ (SendSms testClient getValidSmsForSend timeoutGateway).result.Error ≠ none :=
  ⟨⟨_, rfl⟩, SendSms_local_failure testClient getValidSmsForSend timeoutGateway (Or.inl ⟨_, rfl⟩)⟩


/-- C5: a client with an empty session token gets -1 and the error "not
authorized" from `GetBalance`, and no request is sent, whatever the gateway. -/
theorem GetBalance_not_authorized (c : stClient) (gw : Gateway) (h : c.sessionID = []) :
    GetBalance c gw = ⟨(Float64.minusOne, some .notAuthorized), []⟩ := by
  unfold GetBalance
  simp [h]

/-- C5 at a new client and a gateway that would answer with a balance. -/
theorem GetBalance_not_authorized_witness :
    (NewClient (ascii "http://127.0.0.1:8080") 100000000).sessionID = []
    ∧ GetBalance (NewClient (ascii "http://127.0.0.1:8080") 100000000)
        (constGateway 200 (ascii "123.45"))
      = ⟨(Float64.minusOne, some .notAuthorized), []⟩ :=
  ⟨rfl, GetBalance_not_authorized _ _ rfl⟩


/-- A space before a token is skipped. -/
theorem lexFrom_idle_space (bs : Bytes) : lexFrom .idle (32 :: bs) = lexFrom .idle bs := by
  have hstep : lexStep .idle 32 = some ([], .idle) := by decide
  simp only [lexFrom, hstep, List.nil_append]
  cases lexFrom .idle bs <;> rfl

/-- Spaces before a token are skipped. -/
theorem lexFrom_idle_spaces (n : Nat) (rest : Bytes) :
    lexFrom .idle (List.replicate n 32 ++ rest) = lexFrom .idle rest := by
  induction n with
  | zero => rfl
  | succ n ih => rw [List.replicate_succ, List.cons_append, lexFrom_idle_space, ih]

/-- Leading spaces do not change the result of `json.Unmarshal`. -/
theorem unmarshalFloat64_spaces (n : Nat) (rest : Bytes) :
    unmarshalFloat64 (List.replicate n 32 ++ rest) = unmarshalFloat64 rest := by
  unfold unmarshalFloat64 parseJSON lex
  rw [lexFrom_idle_spaces]

/-- The first `n + 1` bytes of `n` spaces followed by more bytes. -/
theorem take_succ_spaces (n b : Nat) (rest : Bytes) :
    (List.replicate n 32 ++ b :: rest).take (n + 1) = List.replicate n 32 ++ [b] := by
  induction n with
  | zero => rfl
  | succ n ih => rw [List.replicate_succ, List.cons_append, List.take_succ_cons, ih]; rfl

/-- The result of `GetBalance` when the gateway answers, the body is read and
decodes. -/
theorem GetBalance_decoded (c : stClient) (gw : Gateway) (status : Nat) (body : Body)
    (data : Bytes) (value : Float64) (hs : c.sessionID ≠ [])
    (hreply : gw (balanceRequest c) = .response status body)
    (hread : ReadAllLimit 2048 body = .ok data)
    (hdecode : unmarshalFloat64 data = .ok value) :
    (GetBalance c gw).result = (value, none) := by
  simp [GetBalance, hs, hreply, hread, hdecode]

/-- What `json.Unmarshal` accepts for a `float64`: the value `null`, which
leaves zero, and the numbers in the range of `float64`. -/
theorem unmarshalFloat64_ok_iff (data : Bytes) (value : Float64) :
    unmarshalFloat64 data = .ok value
      ↔ (parseJSON data = some .null ∧ value = Float64.zero)
        ∨ ∃ lit, parseJSON data = some (.num lit) ∧ parseFloat64 lit = some value := by
  unfold unmarshalFloat64
  rcases hp : parseJSON data with _ | v
  · simp
  · cases v with
    | null => simp [eq_comm]
    | num lit =>
      rcases hf : parseFloat64 lit with _ | f
      · simp [hf]
      · simp [hf]
    | bool b => simp
    | str raw => simp
    | arr elems => simp
    | obj members => simp

/-- Every result of `GetBalance` with an error carries the value -1. -/
theorem GetBalance_error_minusOne (c : stClient) (gw : Gateway)
    (h : (GetBalance c gw).result.2 ≠ none) : (GetBalance c gw).result.1 = Float64.minusOne := by
  by_cases hs : c.sessionID = []
  · simp [GetBalance, hs]
  · rcases hgw : gw (balanceRequest c) with e | ⟨status, body⟩
    · simp [GetBalance, hs, hgw]
    · rcases hr : ReadAllLimit 2048 body with e | data
      · simp [GetBalance, hs, hgw, hr]
      · rcases hd : unmarshalFloat64 data with e | value
        · simp [GetBalance, hs, hgw, hr, hd]
        · simp [GetBalance, hs, hgw, hr, hd] at h

/-- The result of `GetBalance` when the gateway answers, the body is read and
does not decode. -/
theorem GetBalance_not_decoded (c : stClient) (gw : Gateway) (status : Nat) (body : Body)
    (data : Bytes) (e : JSONError) (hs : c.sessionID ≠ [])
    (hreply : gw (balanceRequest c) = .response status body)
    (hread : ReadAllLimit 2048 body = .ok data)
    (hdecode : unmarshalFloat64 data = .error e) :
    (GetBalance c gw).result = (Float64.minusOne, some (.json e)) := by
  simp [GetBalance, hs, hreply, hread, hdecode]

/-- C6 fails on the code: the body below is 2049 bytes long and is the number
12; `GetBalance` reads its first 2048 bytes, the number 1 after 2047 spaces,
and returns 1 without an error. -/
theorem GetBalance_long_body_accepted :
    paddedBalanceBody.length = 2049
    ∧ unmarshalFloat64 paddedBalanceBody = .ok ⟨false, 6755399441055744, -49⟩
    ∧ (GetBalance testClient (constGateway 200 paddedBalanceBody)).result
      = (⟨false, 4503599627370496, -52⟩, none) := by
  have hlen : paddedBalanceBody.length = 2049 := by
    rw [paddedBalanceBody, List.length_append, List.length_replicate]
    rfl
  refine ⟨hlen, ?_, ?_⟩
  · rw [paddedBalanceBody, unmarshalFloat64_spaces]
    decide
  · apply GetBalance_decoded testClient _ 200 ⟨paddedBalanceBody, none⟩
      (List.replicate 2047 32 ++ [49])
    · decide
    · rfl
    · unfold ReadAllLimit
      rw [if_pos (by rw [hlen]; decide)]
      exact congrArg Except.ok (take_succ_spaces 2047 49 [50])
    · rw [unmarshalFloat64_spaces]
      decide

/-- C7 fails on the code: the body `null` is not a number, and `GetBalance`
returns 0 without an error. -/
theorem GetBalance_null_body_accepted :
    (GetBalance testClient (constGateway 200 (ascii "null"))).result = (Float64.zero, none) := by
  decide

/-- The bodies of the mock server for `SmsBalanceOK`, `SmsBalanceWrongJson`
and `SmsBalanceWrongData`: the first is accepted, the other two are rejected
with -1 and an error. -/
theorem GetBalance_mock_bodies :
    (GetBalance testClient (constGateway 200 (ascii "123.45"))).result
      = (⟨false, 8687021468732621, -46⟩, none)
    ∧ (GetBalance testClient (constGateway 200 (ascii "wrong Json"))).result
      = (Float64.minusOne, some (.json .syntaxError))
    ∧ (GetBalance testClient (constGateway 200 (ascii "\"string\""))).result
      = (Float64.minusOne, some (.json .typeError)) := by
  decide

/-! ## Authorize -/

/-- What is read of a body through a reader limited to `n` bytes, when it is
read without an error, is the first `n` bytes of the body. -/
theorem ReadAllLimit_ok (n : Nat) (body : Body) (data : Bytes)
    (h : ReadAllLimit n body = .ok data) : data = body.data.take n := by
  unfold ReadAllLimit at h
  split at h
  · exact (Except.ok.inj h).symm
  · unfold ReadAll at h
    split at h
    · rw [List.take_of_length_le (by omega)]
      exact (Except.ok.inj h).symm
    · cases h

/-- The result of `Authorize` and the token it stores when the gateway
answers and the body is read. -/
theorem Authorize_read (c : stClient) (login password : Bytes) (gw : Gateway) (status : Nat)
    (body : Body) (data : Bytes)
    (hreply : gw (authorizeRequest c login password) = .response status body)
    (hread : ReadAllLimit 2048 body = .ok data) :
    (Authorize c login password gw).2.result = (removeQuotes data, none)
    ∧ (Authorize c login password gw).1.sessionID = removeQuotes data := by
  have hreq : authorizeRequest
      { c with login := login, password := password, header := header, sessionID := [] }
      login password = authorizeRequest c login password := rfl
  simp [Authorize, hreq, hreply, hread]

/-- Letters are not quotes. -/
theorem removeQuotes_replicate (n : Nat) : removeQuotes (List.replicate n 97) = List.replicate n 97 := by
  induction n with
  | zero => rfl
  | succ n ih =>
    rw [List.replicate_succ, removeQuotes, List.filter_cons_of_pos (by decide)]
    exact congrArg (fun t => 97 :: t) ih

/-- A string of letters has no surrounding quotes. -/
theorem stripSurroundingQuotes_replicate (n : Nat) :
    stripSurroundingQuotes (List.replicate (n + 1) 97) = List.replicate (n + 1) 97 := by
  have hhead : (List.replicate (n + 1) 97).head? ≠ some 34 := by
    intro h
    rw [List.replicate_succ, List.head?_cons] at h
    cases h
  have hlast : (List.replicate (n + 1) 97).getLast? ≠ some 34 := by
    intro h
    have hmem := List.mem_of_getLast?_eq_some h
    have := List.eq_of_mem_replicate hmem
    omega
  unfold stripSurroundingQuotes
  simp only [if_neg hhead, if_neg hlast]

/-- C8 as stated fails in two ways: on the body `"a"b"` the token is `ab`,
with the quote in the middle removed, not the body without its surrounding
quotes; on a body of 2049 letters `a` the token is the first 2048 of them. -/
theorem Authorize_token_not_stripped_body :
    ((Authorize (NewClient (ascii "http://127.0.0.1:8080") 100000000) (ascii "login")
        (ascii "password") (constGateway 200 (ascii "\"a\"b\""))).2.result
      = (ascii "ab", none)
      ∧ stripSurroundingQuotes (ascii "\"a\"b\"") = ascii "a\"b")
    ∧ ((Authorize (NewClient (ascii "http://127.0.0.1:8080") 100000000) (ascii "login")
        (ascii "password") (constGateway 200 (List.replicate 2049 97))).2.result
      = (List.replicate 2048 97, none)
      ∧ stripSurroundingQuotes (List.replicate 2049 97) = List.replicate 2049 97) := by
  refine ⟨by decide, ?_, stripSurroundingQuotes_replicate 2048⟩
  have hread : ReadAllLimit 2048 ⟨List.replicate 2049 97, none⟩
      = .ok (List.replicate 2048 97) := by
    unfold ReadAllLimit
    rw [if_pos (by rw [List.length_replicate]; decide), List.take_replicate]
    rfl
  have h := (Authorize_read (NewClient (ascii "http://127.0.0.1:8080") 100000000)
    (ascii "login") (ascii "password") (constGateway 200 (List.replicate 2049 97)) 200
    ⟨List.replicate 2049 97, none⟩ _ rfl hread).1
  rw [h, removeQuotes_replicate]

/-- C8, amended: when the body of the reply to `/Session` is read without an
error, `Authorize` returns no error and the first 2048 bytes of the body with
every quote character removed, and `GetSessionID` returns the same token
afterwards. -/
theorem Authorize_token (c : stClient) (login password : Bytes) (gw : Gateway) (status : Nat)
    (body : Body) (data : Bytes)
    (hreply : gw (authorizeRequest c login password) = .response status body)
    (hread : ReadAllLimit 2048 body = .ok data) :
    (Authorize c login password gw).2.result = (removeQuotes (body.data.take 2048), none)
    ∧ GetSessionID (Authorize c login password gw).1 = removeQuotes (body.data.take 2048) := by
  have h := Authorize_read c login password gw status body data hreply hread
  rw [ReadAllLimit_ok 2048 body data hread] at h
  exact h

/-- C8, amended, at the reply of the mock server to valid credentials. -/
theorem Authorize_token_witness :
    (constGateway 200 mockSessionBody
        (authorizeRequest (NewClient (ascii "http://127.0.0.1:8080") 100000000) (ascii "login")
          (ascii "password"))
      = .response 200 ⟨mockSessionBody, none⟩
    ∧ ReadAllLimit 2048 ⟨mockSessionBody, none⟩ = .ok mockSessionBody)
    ∧ (Authorize (NewClient (ascii "http://127.0.0.1:8080") 100000000) (ascii "login")
        (ascii "password") (constGateway 200 mockSessionBody)).2.result
      = (ascii "5f9df3e9733582f614a0b460a3e47d77", none)
    ∧ GetSessionID (Authorize (NewClient (ascii "http://127.0.0.1:8080") 100000000)
        (ascii "login") (ascii "password") (constGateway 200 mockSessionBody)).1
      = ascii "5f9df3e9733582f614a0b460a3e47d77" :=
  ⟨⟨rfl, by decide⟩,
   Authorize_token (NewClient (ascii "http://127.0.0.1:8080") 100000000) (ascii "login")
     (ascii "password") (constGateway 200 mockSessionBody) 200 ⟨mockSessionBody, none⟩
     mockSessionBody rfl (by decide)⟩

/-! ## GetSmsStatus -/

/-- C9 as stated fails: a reply with status 201 is a 2xx reply and its body
decodes as a status record with the description `delivered`, yet
`GetSmsStatus` returns the empty string and an error. -/
theorem GetSmsStatus_status_201_error :
    (200 ≤ (201 : Nat) ∧ (201 : Nat) ≤ 299)
    ∧ (unmarshalSmsStatus mockStatusBody).map (fun r => r.StateDescription)
      = .ok (ascii "delivered")
    ∧ (GetSmsStatus id testClient (ascii "1404497075") (constGateway 201 mockStatusBody)).result
      = ([], some (.httpStatus 201)) := by
  decide

/-- C9, amended: when the gateway answers `/State` with status 200 and a body
that decodes as a status record, `GetSmsStatus` returns the description of
the record in lower case and no error. -/
theorem GetSmsStatus_ok (unicodeLower : Bytes → Bytes) (c : stClient) (smsID : Bytes)
    (gw : Gateway) (data : Bytes) (value : sTelecomGetSmsStatusResponse)
    (hreply : gw (smsStatusRequest c smsID) = .response 200 ⟨data, none⟩)
    (hdecode : unmarshalSmsStatus data = .ok value) :
    (GetSmsStatus unicodeLower c smsID gw).result
      = (ToLower unicodeLower value.StateDescription, none) := by
  simp [GetSmsStatus, hreply, ReadAll, hdecode, StatusOK]

/-- C9, amended, at the reply of the mock server to `SmsGetStatusOK`. -/
theorem GetSmsStatus_ok_witness :
    (constGateway 200 mockStatusBody (smsStatusRequest testClient (ascii "1404497075"))
      = .response 200 ⟨mockStatusBody, none⟩
    ∧ unmarshalSmsStatus mockStatusBody
      = .ok ⟨0, some (ascii "/Date(1440744480000)/"), none, none, none, ascii "delivered",
          some (ascii "1.130")⟩)
    ∧ (GetSmsStatus id testClient (ascii "1404497075") (constGateway 200 mockStatusBody)).result
      = (ascii "delivered", none) :=
  ⟨⟨rfl, by decide⟩,
   GetSmsStatus_ok id testClient (ascii "1404497075") (constGateway 200 mockStatusBody)
     mockStatusBody
     ⟨0, some (ascii "/Date(1440744480000)/"), none, none, none, ascii "delivered",
       some (ascii "1.130")⟩ rfl (by decide)⟩


/-- The dates of a status record may be absent and its price `null`; the
description is returned in lower case. -/
theorem GetSmsStatus_sparse_record :
    unmarshalSmsStatus sparseStatusBody
      = .ok ⟨2, none, none, none, none, ascii "Delivered", none⟩
    ∧ (GetSmsStatus id testClient (ascii "1404497075") (constGateway 200 sparseStatusBody)).result
      = (ascii "delivered", none) := by
  decide

/-! ## The form of SendSms -/

theorem upperhex_isHexDigit (x : Nat) (h : x < 16) : isHexDigit (upperhex x) = true := by
  interval_cases x <;> rfl

theorem hexVal_upperhex (c : Nat) (h : c < 256) :
    hexVal (upperhex (c / 16 % 16)) * 16 + hexVal (upperhex (c % 16)) = c := by
  interval_cases c <;> rfl

/-- A byte of an escaped string is not `&`, `=`, `;`. -/
theorem QueryEscape_safe (s : Bytes) : ∀ b ∈ QueryEscape s, b ≠ 38 ∧ b ≠ 61 ∧ b ≠ 59 := by
  induction s with
  | nil => intro b hb; cases hb
  | cons c tl ih =>
    intro b hb
    unfold QueryEscape at hb
    by_cases hu : isUnreserved c = true
    · rw [if_pos hu] at hb
      rcases List.mem_cons.mp hb with rfl | hb
      · simp [isUnreserved] at hu
        omega
      · exact ih b hb
    · rw [if_neg hu] at hb
      by_cases hsp : (c == 32) = true
      · rw [if_pos hsp] at hb
        rcases List.mem_cons.mp hb with rfl | hb
        · decide
        · exact ih b hb
      · rw [if_neg hsp] at hb
        have h1 : c / 16 % 16 < 16 := Nat.mod_lt _ (by decide)
        have h2 : c % 16 < 16 := Nat.mod_lt _ (by decide)
        rcases List.mem_cons.mp hb with rfl | hb
        · decide
        rcases List.mem_cons.mp hb with rfl | hb
        · unfold upperhex; split <;> omega
        rcases List.mem_cons.mp hb with rfl | hb
        · unfold upperhex; split <;> omega
        · exact ih b hb

theorem QueryUnescape_cons (c : Nat) (tl : Bytes) (h37 : c ≠ 37) :
    QueryUnescape (c :: tl)
      = if c = 43 then (QueryUnescape tl).map (fun t => 32 :: t)
        else (QueryUnescape tl).map (fun t => c :: t) := by
  rcases tl with _ | ⟨a, _ | ⟨b, r⟩⟩ <;> simp [QueryUnescape, h37]

theorem QueryUnescape_percent (a b : Nat) (r : Bytes) (ha : isHexDigit a = true)
    (hb : isHexDigit b = true) :
    QueryUnescape (37 :: a :: b :: r)
      = (QueryUnescape r).map (fun t => (hexVal a * 16 + hexVal b) :: t) := by
  rw [QueryUnescape]
  simp [ha, hb]

/-- Unescaping an escaped string gives the string back. -/
theorem QueryUnescape_QueryEscape (s : Bytes) (h : WellFormed s) :
    QueryUnescape (QueryEscape s) = some s := by
  induction s with
  | nil => rfl
  | cons c tl ih =>
    have hc : c < 256 := h c (List.mem_cons_self _ _)
    have ih' := ih (fun b hb => h b (List.mem_cons_of_mem _ hb))
    unfold QueryEscape
    by_cases hu : isUnreserved c = true
    · rw [if_pos hu]
      have h37 : c ≠ 37 ∧ c ≠ 43 := by
        simp [isUnreserved] at hu
        omega
      rw [QueryUnescape_cons c _ h37.1, if_neg h37.2, ih']
      rfl
    · rw [if_neg hu]
      by_cases hsp : (c == 32) = true
      · rw [if_pos hsp]
        have h32 : c = 32 := by simpa using hsp
        rw [QueryUnescape_cons 43 _ (by decide), if_pos rfl, ih', h32]
        rfl
      · rw [if_neg hsp]
        rw [QueryUnescape_percent _ _ _
          (upperhex_isHexDigit _ (Nat.mod_lt (c / 16) (by decide)))
          (upperhex_isHexDigit _ (Nat.mod_lt c (by decide))), ih', hexVal_upperhex c hc]
        rfl


theorem splitBytes_no_sep (sep : Nat) (p : Bytes) (hp : ∀ b ∈ p, b ≠ sep) :
    splitBytes sep p = [p] := by
  induction p with
  | nil => rfl
  | cons c tl ih =>
    have hc : (c == sep) = false := by simpa using hp c (List.mem_cons_self _ _)
    simp [splitBytes, hc, ih (fun b hb => hp b (List.mem_cons_of_mem _ hb))]

theorem splitBytes_append_sep (sep : Nat) (p rest : Bytes) (hp : ∀ b ∈ p, b ≠ sep) :
    splitBytes sep (p ++ sep :: rest) = p :: splitBytes sep rest := by
  induction p with
  | nil => simp [splitBytes]
  | cons c tl ih =>
    have hc : (c == sep) = false := by simpa using hp c (List.mem_cons_self _ _)
    simp [splitBytes, hc, ih (fun b hb => hp b (List.mem_cons_of_mem _ hb))]

theorem cutBytes_append_sep (sep : Nat) (k v : Bytes) (hk : ∀ b ∈ k, b ≠ sep) :
    cutBytes sep (k ++ sep :: v) = (k, v) := by
  induction k with
  | nil => simp [cutBytes, List.takeWhile, List.dropWhile]
  | cons c tl ih =>
    have hc : c ≠ sep := hk c (List.mem_cons_self _ _)
    have ih' := ih (fun b hb => hk b (List.mem_cons_of_mem _ hb))
    have hcb : (c != sep) = true := by simpa using hc
    simp only [cutBytes, Prod.mk.injEq] at ih' ⊢
    simp only [List.cons_append, List.takeWhile, List.dropWhile, hcb]
    exact ⟨congrArg (fun t => c :: t) ih'.1, ih'.2⟩

/-- The pair a form carries for a key and a value. -/
theorem parsePair_escape (k v : Bytes) (hk : WellFormed k) (hv : WellFormed v) :
    parsePair (QueryEscape k ++ [61] ++ QueryEscape v) = some (k, v) := by
  have hsemi : (QueryEscape k ++ [61] ++ QueryEscape v).contains 59 = false := by
    rw [Bool.eq_false_iff]
    intro hcon
    have hmem : 59 ∈ QueryEscape k ++ [61] ++ QueryEscape v := by simpa using hcon
    simp only [List.mem_append, List.mem_singleton] at hmem
    rcases hmem with (h | h) | h
    · exact (QueryEscape_safe k 59 h).2.2 rfl
    · exact absurd h (by decide)
    · exact (QueryEscape_safe v 59 h).2.2 rfl
  have hcut : cutBytes 61 (QueryEscape k ++ [61] ++ QueryEscape v)
      = (QueryEscape k, QueryEscape v) := by
    rw [List.append_assoc, List.singleton_append]
    exact cutBytes_append_sep 61 _ _ (fun b hb => (QueryEscape_safe k b hb).2.1)
  unfold parsePair
  rw [if_neg (by rw [hsemi]; decide), hcut, QueryUnescape_QueryEscape k hk,
    QueryUnescape_QueryEscape v hv]

theorem encodeField_no_amp (kv : Bytes × Bytes) : ∀ b ∈ encodeField kv, b ≠ 38 := by
  intro b hb
  simp only [encodeField, List.mem_append, List.mem_singleton] at hb
  rcases hb with (h | h) | h
  · exact (QueryEscape_safe _ b h).1
  · rw [h]; decide
  · exact (QueryEscape_safe _ b h).1

theorem encodeField_ne_nil (kv : Bytes × Bytes) : (encodeField kv).isEmpty = false := by
  simp [encodeField]

/-- Splitting the joined fields of a form gives the fields back. -/
theorem splitBytes_intercalate (kv : Bytes × Bytes) (fields : List (Bytes × Bytes)) :
    splitBytes 38 ([38].intercalate ((kv :: fields).map encodeField))
      = (kv :: fields).map encodeField := by
  induction fields generalizing kv with
  | nil =>
    simp only [List.map_cons, List.map_nil, List.intercalate, List.intersperse,
      List.flatten_cons, List.flatten_nil, List.append_nil]
    exact splitBytes_no_sep 38 _ (encodeField_no_amp kv)
  | cons kv' rest ih =>
    have h := ih kv'
    simp only [List.map_cons, List.intercalate, List.intersperse, List.flatten_cons] at h ⊢
    rw [List.singleton_append, splitBytes_append_sep 38 _ _ (encodeField_no_amp kv), h]

/-- Reading the fields of a form. -/
theorem mapM_parsePair (fields : List (Bytes × Bytes))
    (h : ∀ kv ∈ fields, WellFormed kv.1 ∧ WellFormed kv.2) :
    ((fields.map encodeField).filter (fun part => !part.isEmpty)).mapM parsePair
      = some fields := by
  induction fields with
  | nil => rfl
  | cons kv rest ih =>
    have hkv := h kv (List.mem_cons_self _ _)
    have ih' := ih (fun x hx => h x (List.mem_cons_of_mem _ hx))
    rw [List.map_cons, List.filter_cons_of_pos (by rw [encodeField_ne_nil]; rfl),
      List.mapM_cons]
    have hp : parsePair (encodeField kv) = some kv := parsePair_escape kv.1 kv.2 hkv.1 hkv.2
    rw [hp, ih']
    rfl

/-- The receiver of a form of well-formed fields reads the fields that were
written. -/
theorem parseQuery_intercalate (fields : List (Bytes × Bytes))
    (h : ∀ kv ∈ fields, WellFormed kv.1 ∧ WellFormed kv.2) :
    parseQuery ([38].intercalate (fields.map encodeField)) = some fields := by
  unfold parseQuery
  cases fields with
  | nil => rfl
  | cons kv rest => rw [splitBytes_intercalate, mapM_parsePair _ h]


/-- The request `SendSms` sends, whatever the reply. -/
theorem SendSms_sent (c : stClient) (sms : Sms) (gw : Gateway) :
    (SendSms c sms gw).sent = [sendSmsRequest c sms] := by
  unfold SendSms
  simp only []
  split
  · rfl
  · split
    · rfl
    · split
      · split
        · rfl
        · split <;> rfl
      · split <;> rfl

/-- The client `Authorize` leaves behind when it returns no error. -/
theorem Authorize_state (c : stClient) (login password : Bytes) (gw : Gateway) (t : Bytes)
    (h : (Authorize c login password gw).2.result = (t, none)) :
    (Authorize c login password gw).1.sessionID = t
    ∧ (Authorize c login password gw).1.header = header
    ∧ (Authorize c login password gw).1.basePath = c.basePath := by
  unfold Authorize at h ⊢
  simp only [] at h ⊢
  split at h
  · simp at h
  · split at h
    · simp at h
    · simp only [Prod.mk.injEq, and_true] at h
      exact ⟨h, rfl, rfl⟩

/-- C10: when `Authorize` returns a token and no error, the next `SendSms`
sends one request, a POST to `/Send/SendSms/` whose body is the encoded form
of five fields: `sessionId` with the token, `destinationAddress` with the
phone of the message, `data` with its text, `validity` with `1440` and
`sourceAddress` with `GLAVFINANS`; a receiver that parses the body reads
exactly these five fields. -/
theorem SendSms_after_Authorize (c : stClient) (login password : Bytes) (gw gw' : Gateway)
    (sms : Sms) (t : Bytes)
    (hauth : (Authorize c login password gw).2.result = (t, none)) :
    (SendSms (Authorize c login password gw).1 sms gw').sent
      = [⟨.POST, c.basePath ++ ascii "/Send/SendSms/", ascii "application/x-www-form-urlencoded",
          Values.Encode [(ascii "sessionId", [t]), (ascii "destinationAddress", [sms.Phone]),
            (ascii "data", [sms.Text]), (ascii "validity", [ascii "1440"]),
            (ascii "sourceAddress", [ascii "GLAVFINANS"])]⟩]
    ∧ (WellFormed t → WellFormed sms.Phone → WellFormed sms.Text →
        parseQuery (Values.Encode [(ascii "sessionId", [t]),
            (ascii "destinationAddress", [sms.Phone]), (ascii "data", [sms.Text]),
            (ascii "validity", [ascii "1440"]), (ascii "sourceAddress", [ascii "GLAVFINANS"])])
          = some [(ascii "data", sms.Text), (ascii "destinationAddress", sms.Phone),
              (ascii "sessionId", t), (ascii "sourceAddress", ascii "GLAVFINANS"),
              (ascii "validity", ascii "1440")]) := by
  obtain ⟨hsid, hhdr, hbase⟩ := Authorize_state c login password gw t hauth
  constructor
  · rw [SendSms_sent]
    simp only [sendSmsRequest, sendSmsValues, hsid, hhdr, hbase]
    rfl
  · intro ht hphone htext
    have henc : Values.Encode [(ascii "sessionId", [t]),
          (ascii "destinationAddress", [sms.Phone]), (ascii "data", [sms.Text]),
          (ascii "validity", [ascii "1440"]), (ascii "sourceAddress", [ascii "GLAVFINANS"])]
        = [38].intercalate (([(ascii "data", sms.Text), (ascii "destinationAddress", sms.Phone),
              (ascii "sessionId", t), (ascii "sourceAddress", ascii "GLAVFINANS"),
              (ascii "validity", ascii "1440")] : List (Bytes × Bytes)).map encodeField) := rfl
    rw [henc]
    apply parseQuery_intercalate
    intro kv hkv
    simp only [List.mem_cons, List.mem_singleton, List.not_mem_nil, or_false] at hkv
    rcases hkv with rfl | rfl | rfl | rfl | rfl
    · exact ⟨(by decide : WellFormed (ascii "data")), htext⟩
    · exact ⟨(by decide : WellFormed (ascii "destinationAddress")), hphone⟩
    · exact ⟨(by decide : WellFormed (ascii "sessionId")), ht⟩
    · exact ⟨(by decide : WellFormed (ascii "sourceAddress")),
        (by decide : WellFormed (ascii "GLAVFINANS"))⟩
    · exact ⟨(by decide : WellFormed (ascii "validity")), (by decide : WellFormed (ascii "1440"))⟩

/-- C10 at the mock server: the token of `mockSessionBody` is the session of
the form that the following `SendSms` sends. -/
theorem SendSms_after_Authorize_witness :
    (Authorize (NewClient (ascii "http://127.0.0.1:8080") 100000000) (ascii "login")
        (ascii "password") (constGateway 200 mockSessionBody)).2.result
      = (ascii "5f9df3e9733582f614a0b460a3e47d77", none)
    ∧ ((SendSms (Authorize (NewClient (ascii "http://127.0.0.1:8080") 100000000) (ascii "login")
          (ascii "password") (constGateway 200 mockSessionBody)).1 getValidSmsForSend
          (constGateway 200 mockSendOkBody)).sent.map (fun r => parseQuery r.body))
      = [some [(ascii "data", getValidSmsForSend.Text),
          (ascii "destinationAddress", ascii "71234567890"),
          (ascii "sessionId", ascii "5f9df3e9733582f614a0b460a3e47d77"),
          (ascii "sourceAddress", ascii "GLAVFINANS"), (ascii "validity", ascii "1440")]] := by
  have h := SendSms_after_Authorize (NewClient (ascii "http://127.0.0.1:8080") 100000000)
    (ascii "login") (ascii "password") (constGateway 200 mockSessionBody)
    (constGateway 200 mockSendOkBody) getValidSmsForSend
    (ascii "5f9df3e9733582f614a0b460a3e47d77") (by decide)
  refine ⟨by decide, ?_⟩
  rw [h.1, List.map_cons, List.map_nil, h.2 (by decide) (by decide) (by decide)]
  rfl


/-! ## The tests of the repository -/

/-- A string that is not closed is a syntax error. -/
theorem lexFrom_inStr_letters (n : Nat) (acc : Bytes) :
    lexFrom (.inStr acc) (List.replicate n 115) = none := by
  induction n generalizing acc with
  | zero => rfl
  | succ n ih =>
    have hstep : lexStep (.inStr acc) 115 = some ([], .inStr (115 :: acc)) := rfl
    rw [List.replicate_succ, lexFrom, hstep]
    simp only [ih]

/-- Test `TestLargeAnswer`: the first 2048 bytes of the large reply of the mock
server are a string that is not closed, and `GetBalance` returns an error. -/
theorem GetBalance_mock_large_body :
    (GetBalance testClient (constGateway 200 mockLargeBody)).result
      = (Float64.minusOne, some (.json .syntaxError)) := by
  have htake : mockLargeBody.take 2048 = 34 :: List.replicate 2047 115 := by
    rw [mockLargeBody, List.take_succ_cons,
      List.take_append_of_le_length (by rw [List.length_replicate]; decide),
      List.take_replicate]
    rfl
  have hlen : 2048 ≤ mockLargeBody.length := by
    rw [mockLargeBody, List.length_cons, List.length_append, List.length_replicate]
    decide
  have hlex : lex (34 :: List.replicate 2047 115) = none := by
    have hstep : lexStep .idle 34 = some ([], .inStr []) := rfl
    rw [lex, lexFrom, hstep]
    simp only [lexFrom_inStr_letters]
  have hdec : unmarshalFloat64 (34 :: List.replicate 2047 115) = .error .syntaxError := by
    simp only [unmarshalFloat64, parseJSON, hlex]
  have hread : ReadAllLimit 2048 ⟨mockLargeBody, none⟩
      = .ok (34 :: List.replicate 2047 115) := by
    unfold ReadAllLimit
    rw [if_pos hlen, htake]
  exact GetBalance_not_decoded testClient _ 200 ⟨mockLargeBody, none⟩ _ _ (by decide) rfl
    hread hdec

/-- Test `TestAuthorizeFail`: the mock server answers invalid credentials with
status 401 and an empty body; `Authorize` returns the empty token and no
error, and `GetBalance` then fails without a request (`TestAuthOnGetBalance`). -/
theorem Authorize_mock_invalid_credentials :
    (Authorize testClient (ascii "login2") (ascii "password2") (constGateway 401 [])).2.result
      = ([], none)
    ∧ GetBalance (Authorize testClient (ascii "login2") (ascii "password2")
        (constGateway 401 [])).1 (constGateway 200 (ascii "123.45"))
      = ⟨(Float64.minusOne, some .notAuthorized), []⟩ := by
  decide

/-- Tests `TestGetSmsStatusIfBadRequest`, `TestGetSmsStatusIfNotAuthorized`
and `TestGetSmsStatusIfTimedout`: the empty string and an error. -/
theorem GetSmsStatus_mock_failures :
    (GetSmsStatus id testClient [] (constGateway 400 mockBadRequestBody)).result
      = ([], some (.httpStatus 400))
    ∧ (GetSmsStatus id testClient (ascii "1404497075")
        (constGateway 401 mockNotAuthorizedBody)).result = ([], some (.httpStatus 401))
    ∧ (GetSmsStatus id testClient (ascii "1404497075") timeoutGateway).result
      = ([], some (.transport ⟨"Client.Timeout exceeded"⟩)) := by
  decide

end Stelecom
